import Mathlib

/-!
Shallow embedding of the QueryPrism browser client: the session store
(AuthContext.jsx), the OAuth token capture (App.jsx), the chat page
orchestration (ChatPage.jsx and its earlier variants), the file upload
component (FileUpload.jsx), the document list (DocumentList.jsx), the Google
Drive folder commands (ChatPage.jsx) and the busy-flag lifecycle of the four
authentication form pages.  Pure data and the state transitions performed by
each handler are translated directly from the JavaScript source; network
settlement is represented by an explicit `Outcome` value, and React state
setters become explicit record updates.  JavaScript string built-ins used by
the source (`trim`, `startsWith`, `substring`) are modelled over the
character list of a Lean `String`.
-/

/-- Result of an awaited network call as seen by a handler: either a parsed
success payload or a rejection carrying the optional server detail string
found at `err.response.data.detail`. -/
inductive Outcome (α : Type) where
  | ok (value : α)
  | err (detail : Option String)
deriving DecidableEq

/-- JavaScript truthiness of a nullable string value: `null` and the empty
string are falsy, every other string is truthy. -/
def jsTruthy : Option String → Bool
  | none => false
  | some t => t ≠ ""

/-- JavaScript `String.prototype.trim`: removes whitespace from both ends,
modelled on the character list of the string. -/
def jsTrim (s : String) : String :=
  String.mk (((s.data.dropWhile Char.isWhitespace).reverse.dropWhile
    Char.isWhitespace).reverse)

/-- JavaScript `String.prototype.startsWith`, modelled as a character-list
membership test of the candidate head. -/
def jsStartsWith (s pre : String) : Bool :=
  pre.data.isPrefixOf s.data

/-- JavaScript `String.prototype.substring(n)`: the suffix of the string
starting at index `n`, modelled by dropping `n` characters. -/
def jsSubstringFrom (s : String) (n : Nat) : String :=
  String.mk (s.data.drop n)

/-! ## Session store (frontend/src/context/AuthContext.jsx)

The observable session state is the triple mutated by the store: the
in-memory React `token` state, the durable `localStorage` key `token`, and
the Transport default header `apiClient.defaults.headers.common.Authorization`.
-/

/-- Session state: in-memory credential, durable storage copy, and the
Transport default Authorization header. -/
structure SessionState where
  token : Option String
  storage : Option String
  authHeader : Option String
deriving DecidableEq

/-- Credential activation as performed by the success path of `login`
(AuthContext.jsx lines 33 to 36): `setToken`, `localStorage.setItem`, and
assignment of the Bearer default header, executed together in one
synchronous run. -/
def loginApply (s : SessionState) (newAuthToken : String) : SessionState :=
  { token := some newAuthToken
    storage := some newAuthToken
    authHeader := some ("Bearer " ++ newAuthToken) }

/-- Modelled from the spec: `saveCredential` is the single choke point that
updates the in-memory credential, writes the durable copy and sets the
Transport default header together.  The provided AuthContext source inlines
these three statements in `login`; the shared function itself (called
`setTokenAndRedirect` by the OAuth capture effect in App.jsx) is not under
src, so its body is taken from the spec contract. -/
def saveCredential (tok : String) (s : SessionState) : SessionState :=
  { token := some tok
    storage := some tok
    authHeader := some ("Bearer " ++ tok) }

/-- Modelled from the spec: `setTokenAndRedirect` is the AuthContext function
invoked by the OAuth capture effect in App.jsx; it is absent from the
provided AuthContext source, and per the spec it stores the token through
the same `saveCredential` choke point used by password login. -/
def setTokenAndRedirect (s : SessionState) (tok : String) : SessionState :=
  saveCredential tok s

/-- The `logout` function (AuthContext.jsx lines 39 to 44): `setToken(null)`,
`localStorage.removeItem`, and deletion of the default Authorization header.
The body is synchronous with no await point, so in the single-threaded event
loop it runs as one atomic step with no observable intermediate state. -/
def logout (s : SessionState) : SessionState :=
  { token := none, storage := none, authHeader := none }

/-- Module evaluation of AuthContext.jsx lines 8 to 16 together with the
initial `useState(initialToken)`: the persisted credential is read, and
when it is truthy the Bearer default header is assigned immediately, at
module load, before any component mounts and before any outbound request. -/
def initializeSession (persisted : Option String) : SessionState :=
  { token := persisted
    storage := persisted
    authHeader :=
      if jsTruthy persisted then some ("Bearer " ++ persisted.getD "") else none }

/-- The derived flag exposed by the context value (AuthContext.jsx line 51):
`isAuthenticated` is the double negation of the token state. -/
def isAuthenticated (s : SessionState) : Bool :=
  jsTruthy s.token

/-- Result of running the OAuth capture effect: the resulting session state
and whether the URL fragment was stripped (the `navigate` call that replaces
the location). -/
structure CaptureResult where
  session : SessionState
  fragmentStripped : Bool
deriving DecidableEq

/-- The OAuth token capture effect (App.jsx lines 48 to 60): when
`location.hash` starts with the literal `#token=` and the remainder after
index 7 is truthy, the remainder is saved via `setTokenAndRedirect` and the
fragment is stripped; otherwise nothing happens. -/
def oauthCapture (s : SessionState) (hash : String) : CaptureResult :=
  if jsStartsWith hash "#token=" then
    let tokenFromUrl := jsSubstringFrom hash 7
    if tokenFromUrl ≠ "" then
      { session := setTokenAndRedirect s tokenFromUrl, fragmentStripped := true }
    else
      { session := s, fragmentStripped := false }
  else
    { session := s, fragmentStripped := false }

/-! ## Chat page (frontend/src/pages/ChatPage.jsx) -/

/-- One chat turn: a role (`user` or `assistant`) and its content string. -/
structure ChatTurn where
  role : String
  content : String
deriving DecidableEq

/-- Chat page state relevant to the send command: the transcript, the input
buffer and the busy flag `isLoading`. -/
structure ChatState where
  messages : List ChatTurn
  inputValue : String
  isLoading : Bool
deriving DecidableEq

/-- The fixed apology content appended on a failed query
(ChatPage.jsx lines 63 to 66). -/
def chatApology : String :=
  "Sorry, I encountered an error processing your request. Please try again."

/-- The send guard (ChatPage.jsx line 42): the handler returns early unless
the trimmed input is truthy and no send is in flight. -/
def chatSendGuard (s : ChatState) : Bool :=
  jsTrim s.inputValue != "" && !s.isLoading

/-- Synchronous first phase of `handleSendMessage` (ChatPage.jsx lines 45
to 50), executed before the network call: append the user turn built from
the raw `inputValue`, clear the input buffer, set the busy flag. -/
def chatSendPhase1 (s : ChatState) : ChatState :=
  { messages := s.messages ++ [{ role := "user", content := s.inputValue }]
    inputValue := ""
    isLoading := true }

/-- The assistant turn appended at settlement: the returned answer on
success, the fixed apology on failure (ChatPage.jsx lines 57 to 67). -/
def chatAssistantTurn : Outcome String → ChatTurn
  | Outcome.ok answer => { role := "assistant", content := answer }
  | Outcome.err _ => { role := "assistant", content := chatApology }

/-- Settlement phase of `handleSendMessage` (ChatPage.jsx lines 52 to 71):
append the assistant turn for the given outcome and clear the busy flag in
the finally branch. -/
def chatSendPhase2 (s : ChatState) (r : Outcome String) : ChatState :=
  { s with messages := s.messages ++ [chatAssistantTurn r], isLoading := false }

/-- Whole `handleSendMessage` invocation (ChatPage.jsx lines 40 to 72) for a
given settlement outcome: guard, optimistic phase, network call, settlement
phase. -/
def handleSendMessage (s : ChatState) (r : Outcome String) : ChatState :=
  if chatSendGuard s then chatSendPhase2 (chatSendPhase1 s) r else s

/-- The confirmation turn appended by `handleUploadSuccess`
(ChatPage.jsx lines 75 to 84).  The handler also triggers a document list
refresh through the ref; only the transcript effect is modelled here. -/
def uploadDoneTurn (fileName : String) : ChatTurn :=
  { role := "assistant"
    content := "\"" ++ fileName ++ "\" processed and added to your knowledge base." }

/-- The `handleUploadSuccess` callback of the current ChatPage
(ChatPage.jsx lines 75 to 84): appends the confirmation turn to the
transcript. -/
def handleUploadSuccess (s : ChatState) (fileName : String) : ChatState :=
  { s with messages := s.messages ++ [uploadDoneTurn fileName] }

/-- State of the earlier ChatPage variant (src/unnamed/part_001 lines 189
to 196), which tracks an active document id in addition to the chat state. -/
structure VariantChatState where
  activeDocumentId : Option String
  messages : List ChatTurn
  inputValue : String
  isLoading : Bool
deriving DecidableEq

/-- The fixed greeting installed by the variant upload-success handler
(src/unnamed/part_001 line 241). -/
def variantReadyTurn : ChatTurn :=
  { role := "assistant", content := "Your document is ready! Ask a question." }

/-- The `handleUploadSuccess` of the earlier ChatPage variant
(src/unnamed/part_001 lines 237 to 243): records the active document id and
passes a fresh one-element array to `setMessages`, replacing the whole
transcript instead of appending to it. -/
def variantHandleUploadSuccess (s : VariantChatState) (docId : String) :
    VariantChatState :=
  { s with activeDocumentId := some docId, messages := [variantReadyTurn] }

/-! ## File upload (frontend/src/components/FileUpload.jsx) -/

/-- A selected browser file: its name and its reported media type. -/
structure JsFile where
  name : String
  type : String
deriving DecidableEq

/-- Upload component state: the held selection, the value of the picker
control (`fileInputRef.current.value`) and the busy flag. -/
structure UploadState where
  selectedFile : Option JsFile
  pickerValue : String
  isLoading : Bool
deriving DecidableEq

/-- The media type allow-list (FileUpload.jsx lines 19 to 23). -/
def allowedTypes : List String :=
  ["application/pdf", "text/csv",
   "application/vnd.openxmlformats-officedocument.wordprocessingml.document"]

/-- The toast text raised when a disallowed media type is selected
(FileUpload.jsx line 25). -/
def invalidTypeMsg : String :=
  "Invalid file type. Please upload PDF, DOCX, or CSV."

/-- The generic fallback text for a failed upload (FileUpload.jsx line 77). -/
def uploadFailMsg : String :=
  "File upload failed. Please try again."

/-- Externally visible effects emitted by the upload component handlers:
a client-side validation report, a network request, an error report, or the
success callback to the parent. -/
inductive UploadEvent where
  | validationError (msg : String)
  | request (fileName : String)
  | uploadError (msg : String)
  | successCallback (fileName : String)
deriving DecidableEq

/-- Test for the network-request event. -/
def UploadEvent.isRequest : UploadEvent → Bool
  | UploadEvent.request _ => true
  | _ => false

/-- The `handleFileChange` handler (FileUpload.jsx lines 15 to 38) applied
to `e.target.files[0]`: a file with a disallowed media type is rejected with
the validation toast, the picker value and the held selection are cleared,
and the handler returns before any request is issued; a file with an allowed
type becomes the held selection; a cancelled selection clears the held
selection. -/
def handleFileChange (s : UploadState) (files0 : Option JsFile) :
    UploadState × List UploadEvent :=
  match files0 with
  | some file =>
    if allowedTypes.contains file.type then
      ({ s with selectedFile := some file }, [])
    else
      ({ s with pickerValue := "", selectedFile := none },
       [UploadEvent.validationError invalidTypeMsg])
  | none => ({ s with selectedFile := none }, [])

/-- Start of `handleUpload` past its guard (FileUpload.jsx line 49):
`setIsLoading(true)` before the request is issued. -/
def uploadStart (s : UploadState) : UploadState :=
  { s with isLoading := true }

/-- Whole `handleUpload` invocation (FileUpload.jsx lines 41 to 89) for a
given settlement outcome.  Without a selection the handler only raises a
toast and returns.  With a selection, both the success branch and the catch
branch clear the held selection and the picker value, the success branch
additionally invokes the parent callback with the file name, the catch
branch reports the server detail or the generic fallback, and the finally
branch clears the busy flag. -/
def handleUpload (s : UploadState) (r : Outcome Unit) :
    UploadState × List UploadEvent :=
  match s.selectedFile with
  | none => (s, [])
  | some file =>
    match r with
    | Outcome.ok _ =>
      ({ selectedFile := none, pickerValue := "", isLoading := false },
       [UploadEvent.request file.name, UploadEvent.successCallback file.name])
    | Outcome.err detail =>
      ({ selectedFile := none, pickerValue := "", isLoading := false },
       [UploadEvent.request file.name,
        UploadEvent.uploadError (detail.getD uploadFailMsg)])

/-! ## Document list (frontend/src/components/DocumentList.jsx) -/

/-- Document list state: the fetched filenames, the list busy flag, and the
per-item delete marker. -/
structure DocListState where
  documents : List String
  isLoading : Bool
  deletingFilename : Option String
deriving DecidableEq

/-- Start of `fetchDocuments` (DocumentList.jsx line 14):
`setIsLoading(true)` before the request. -/
def fetchStart (s : DocListState) : DocListState :=
  { s with isLoading := true }

/-- Whole `fetchDocuments` invocation (DocumentList.jsx lines 12 to 25):
on success the list is replaced wholesale, on failure it keeps its previous
value, and the finally branch always clears the busy flag. -/
def fetchDocuments (s : DocListState) (r : Outcome (List String)) : DocListState :=
  match r with
  | Outcome.ok docs => { s with documents := docs, isLoading := false }
  | Outcome.err _ => { s with isLoading := false }

/-- Start of `handleDelete` past its confirmation gate
(DocumentList.jsx line 37): mark the row as deleting. -/
def deleteStart (s : DocListState) (filename : String) : DocListState :=
  { s with deletingFilename := some filename }

/-- Whole `handleDelete` invocation (DocumentList.jsx lines 33 to 54) for a
given confirmation answer and settlement outcome; the second component
records whether the implicit `fetchDocuments` refresh was fired.  The
finally branch always clears the per-item marker. -/
def handleDelete (s : DocListState) (filename : String) (confirmed : Bool)
    (r : Outcome Unit) : DocListState × Bool :=
  if confirmed then
    match r with
    | Outcome.ok _ => ({ s with deletingFilename := none }, true)
    | Outcome.err _ => ({ s with deletingFilename := none }, false)
  else
    (s, false)

/-! ## Google Drive folder commands (frontend/src/pages/ChatPage.jsx) -/

/-- Drive section state on the chat page: the folder id input and the two
busy flags. -/
structure DriveState where
  driveFolderId : String
  isSavingFolder : Bool
  isSyncing : Bool
deriving DecidableEq

/-- Start of `handleSaveFolderId` past its empty-input guard
(ChatPage.jsx line 92). -/
def saveFolderStart (s : DriveState) : DriveState :=
  { s with isSavingFolder := true }

/-- Whole `handleSaveFolderId` invocation (ChatPage.jsx lines 87 to 106):
an untrimmed-empty folder id is rejected before the busy flag is touched;
otherwise the request settles and the finally branch clears the flag. -/
def handleSaveFolderId (s : DriveState) (r : Outcome Unit) : DriveState :=
  if jsTrim s.driveFolderId = "" then s
  else { s with isSavingFolder := false }

/-- Start of `handleSyncDrive` (ChatPage.jsx line 110):
`setIsSyncing(true)` before the request. -/
def syncStart (s : DriveState) : DriveState :=
  { s with isSyncing := true }

/-- Whole `handleSyncDrive` invocation (ChatPage.jsx lines 109 to 133) for a
given settlement outcome and document list mount status.  The second
component records whether the document list `refresh` was invoked: that call
sits in the try branch after the success toast, guarded by the ref being
non-null; the catch branch only raises the error toast, and the finally
branch clears the busy flag. -/
def handleSyncDrive (s : DriveState) (docListMounted : Bool)
    (r : Outcome String) : DriveState × Bool :=
  match r with
  | Outcome.ok _ => ({ s with isSyncing := false }, docListMounted)
  | Outcome.err _ => ({ s with isSyncing := false }, false)

/-! ## Busy flags of the authentication form pages

Each of the four form pages owns a single `isLoading` flag.  Their submit
handlers set it before the request and clear it only in the catch branch;
the success branch navigates away with the flag still set (the sources note
that no finally block is used because navigation unmounts the page).
-/

/-- Value of the LoginPage busy flag after `handleSubmit` settles
(LoginPage.jsx lines 25 to 41): cleared only on failure. -/
def loginSubmitBusyAfter : Outcome String → Bool
  | Outcome.ok _ => true
  | Outcome.err _ => false

/-- Value of the RegisterPage busy flag after `handleSubmit` settles
(RegisterPage.jsx lines 30 to 54): cleared only on failure. -/
def registerSubmitBusyAfter : Outcome Unit → Bool
  | Outcome.ok _ => true
  | Outcome.err _ => false

/-- Value of the ForgotPasswordPage busy flag after `handleSubmit` settles
(ForgotPasswordPage.jsx lines 11 to 24): cleared only on failure. -/
def forgotPasswordBusyAfter : Outcome Unit → Bool
  | Outcome.ok _ => true
  | Outcome.err _ => false

/-- The ResetPasswordPage `handleSubmit` (src/unnamed/part_001 lines 29
to 58) applied to the current field values, busy flag and settlement
outcome, returning the busy flag value when the handler finishes: the two
client-side guards return before the flag is touched, and past them the flag
is cleared only on failure. -/
def resetPasswordSubmitBusy (email newPassword confirmPassword : String)
    (isLoading : Bool) (r : Outcome Unit) : Bool :=
  if email = "" then isLoading
  else if newPassword != confirmPassword then isLoading
  else
    match r with
    | Outcome.ok _ => true
    | Outcome.err _ => false

/-! ## Helper lemmas -/

/-- Appending any string to a literal keeps the literal as a JS prefix. -/
theorem jsStartsWith_append (pre v : String) : jsStartsWith (pre ++ v) pre = true := by
  simp [jsStartsWith, List.isPrefixOf_iff_prefix, String.data_append]

/-- Dropping the seven characters of `#token=` from `#token=` ++ v
recovers v. -/
theorem jsSubstringFrom_token_append (v : String) :
    jsSubstringFrom ("#token=" ++ v) 7 = v := by
  cases v with
  | mk l => simp [jsSubstringFrom, String.data_append]

/-! ## Claim theorems -/

/-- C1 (amended): a chat send that passes the send guard appends the user
turn before the network call and exactly one assistant turn at settlement,
in both outcomes, so the transcript grows by exactly two turns; the
appended user content is the raw `inputValue` (trimming is applied only
inside the guard, not to the stored turn). -/
theorem chat_send_appends_exactly_two_turns (s : ChatState) (r : Outcome String)
    (h : chatSendGuard s = true) :
    (chatSendPhase1 s).messages
      = s.messages ++ [{ role := "user", content := s.inputValue }]
    ∧ (handleSendMessage s r).messages
      = s.messages ++ [{ role := "user", content := s.inputValue },
          chatAssistantTurn r]
    ∧ (handleSendMessage s r).messages.length = s.messages.length + 2 := by
  refine ⟨rfl, ?_, ?_⟩ <;>
    simp [handleSendMessage, h, chatSendPhase2, chatSendPhase1]

/-- C1 witness: Scenario B, query answered with 30 days. -/
theorem chat_send_appends_exactly_two_turns_witness :
    (handleSendMessage
        { messages := [], inputValue := "What is the refund policy?",
          isLoading := false } (Outcome.ok "30 days")).messages
      = [{ role := "user", content := "What is the refund policy?" },
         { role := "assistant", content := "30 days" }] := by
  have h := chat_send_appends_exactly_two_turns
    { messages := [], inputValue := "What is the refund policy?",
      isLoading := false } (Outcome.ok "30 days") (by decide)
  simpa [chatAssistantTurn] using h.2.1

/-- C1 counterexample: with input consisting of a word surrounded by spaces
the guard passes but the appended user turn carries the raw text, which
differs from the trimmed input, so the claim as stated fails. -/
theorem chat_user_turn_keeps_raw_whitespace :
    chatSendGuard { messages := [], inputValue := " hi ", isLoading := false }
      = true
    ∧ (handleSendMessage
        { messages := [], inputValue := " hi ", isLoading := false }
        (Outcome.ok "ans")).messages.head?
      = some { role := "user", content := " hi " }
    ∧ jsTrim " hi " ≠ " hi " := by decide

/-- C2: logout clears the in-memory credential, the durable copy and the
Transport header in one synchronous step, leaves `isAuthenticated` false,
and is idempotent from any starting state. -/
theorem logout_clears_all_and_is_idempotent (s : SessionState) :
    (logout s).token = none
    ∧ (logout s).storage = none
    ∧ (logout s).authHeader = none
    ∧ isAuthenticated (logout s) = false
    ∧ logout (logout s) = logout s :=
  ⟨rfl, rfl, rfl, rfl, rfl⟩

/-- C3 (amended): for every non-empty credential, saving it and simulating a
reload makes initialization read the persisted value and set the Bearer
default header at module load, before any outbound request. -/
theorem initialize_restores_bearer_header (c : String) (s : SessionState)
    (h : c ≠ "") :
    (saveCredential c s).storage = some c
    ∧ (initializeSession (saveCredential c s).storage).authHeader
      = some ("Bearer " ++ c)
    ∧ (initializeSession (saveCredential c s).storage).token = some c := by
  refine ⟨rfl, ?_, rfl⟩
  simp [initializeSession, saveCredential, jsTruthy, h]

/-- C3 witness: Scenario A with credential abc123. -/
theorem initialize_restores_bearer_header_witness :
    (initializeSession
        (saveCredential "abc123"
          { token := none, storage := none, authHeader := none }).storage).authHeader
      = some ("Bearer " ++ "abc123") :=
  (initialize_restores_bearer_header "abc123"
    { token := none, storage := none, authHeader := none } (by decide)).2.1

/-- C3 counterexample: the empty-string credential is persisted but is falsy
on reload, so initialization sets no header at all, contradicting the claim
for that credential. -/
theorem initialize_empty_credential_sets_no_header :
    (saveCredential "" { token := none, storage := none, authHeader := none }).storage
      = some ""
    ∧ (initializeSession
        (saveCredential ""
          { token := none, storage := none, authHeader := none }).storage).authHeader
      = none
    ∧ (initializeSession
        (saveCredential ""
          { token := none, storage := none, authHeader := none }).storage).authHeader
      ≠ some ("Bearer " ++ "") := by decide

/-- C4 (amended): the busy flag of each command is set at invocation, and the
chat query, upload, document fetch, per-item delete, folder save and drive
sync commands clear it unconditionally at settlement through their finally
branches; the Login, Register, RequestPasswordReset and CompletePasswordReset
submit handlers instead clear it only on failure — a successful settlement
leaves the flag true and relies on navigation unmounting the page. -/
theorem busy_flag_lifecycle
    (cs : ChatState) (us : UploadState) (f : JsFile) (ds : DocListState)
    (dr : DriveState) (fname tok em pw : String) (m b : Bool)
    (rq : Outcome String) (ru rd : Outcome Unit)
    (rl : Outcome (List String)) (rg : Outcome String)
    (h1 : chatSendGuard cs = true)
    (h2 : us.selectedFile = some f)
    (h3 : jsTrim dr.driveFolderId ≠ "")
    (h4 : em ≠ "") :
    ((chatSendPhase1 cs).isLoading = true
      ∧ (handleSendMessage cs rq).isLoading = false)
    ∧ ((uploadStart us).isLoading = true
      ∧ (handleUpload us ru).fst.isLoading = false)
    ∧ ((fetchStart ds).isLoading = true
      ∧ (fetchDocuments ds rl).isLoading = false)
    ∧ ((deleteStart ds fname).deletingFilename = some fname
      ∧ (handleDelete ds fname true rd).fst.deletingFilename = none)
    ∧ ((saveFolderStart dr).isSavingFolder = true
      ∧ (handleSaveFolderId dr ru).isSavingFolder = false)
    ∧ ((syncStart dr).isSyncing = true
      ∧ (handleSyncDrive dr m rg).fst.isSyncing = false)
    ∧ (loginSubmitBusyAfter (Outcome.err none) = false
      ∧ loginSubmitBusyAfter (Outcome.ok tok) = true)
    ∧ (registerSubmitBusyAfter (Outcome.err none) = false
      ∧ registerSubmitBusyAfter (Outcome.ok ()) = true)
    ∧ (forgotPasswordBusyAfter (Outcome.err none) = false
      ∧ forgotPasswordBusyAfter (Outcome.ok ()) = true)
    ∧ (resetPasswordSubmitBusy em pw pw b (Outcome.err none) = false
      ∧ resetPasswordSubmitBusy em pw pw b (Outcome.ok ()) = true) := by
  refine ⟨⟨rfl, ?_⟩, ⟨rfl, ?_⟩, ⟨rfl, ?_⟩, ⟨rfl, ?_⟩, ⟨rfl, ?_⟩, ⟨rfl, ?_⟩,
    ⟨rfl, rfl⟩, ⟨rfl, rfl⟩, ⟨rfl, rfl⟩, ⟨?_, ?_⟩⟩
  · simp [handleSendMessage, h1, chatSendPhase2]
  · cases ru <;> simp [handleUpload, h2]
  · cases rl <;> rfl
  · cases rd <;> rfl
  · simp [handleSaveFolderId, h3]
  · cases rg <;> rfl
  · simp [resetPasswordSubmitBusy, h4]
  · simp [resetPasswordSubmitBusy, h4]

/-- C4 witness: concrete states for every command slot. -/
theorem busy_flag_lifecycle_witness :
    (handleSendMessage { messages := [], inputValue := "hi", isLoading := false }
        (Outcome.ok "a")).isLoading = false
    ∧ (handleUpload
        { selectedFile := some { name := "a.pdf", type := "application/pdf" },
          pickerValue := "a.pdf", isLoading := true } (Outcome.err none)).fst.isLoading
      = false
    ∧ loginSubmitBusyAfter (Outcome.ok "tok") = true := by
  have h := busy_flag_lifecycle
    { messages := [], inputValue := "hi", isLoading := false }
    { selectedFile := some { name := "a.pdf", type := "application/pdf" },
      pickerValue := "a.pdf", isLoading := true }
    { name := "a.pdf", type := "application/pdf" }
    { documents := [], isLoading := false, deletingFilename := none }
    { driveFolderId := "folder1", isSavingFolder := false, isSyncing := false }
    "report.pdf" "tok" "a@b.c" "password8" true false
    (Outcome.ok "a") (Outcome.err none) (Outcome.ok ())
    (Outcome.ok []) (Outcome.err none)
    (by decide) (by decide) (by decide) (by decide)
  exact ⟨h.1.2, h.2.1.2, h.2.2.2.2.2.2.1.2⟩

/-- C4 counterexample: a successful login settlement leaves the LoginPage
busy flag true, and a successful registration does the same, contradicting
the claim that no command ever leaves its busy flag set after settling. -/
theorem login_success_leaves_busy_true :
    loginSubmitBusyAfter (Outcome.ok "tok") = true
    ∧ registerSubmitBusyAfter (Outcome.ok ()) = true := by decide

/-- C5 (amended): a drive sync invocation always clears its busy flag at
settlement, but the document list refresh fires only on success and only
while the list handle is mounted; a failed sync triggers no refresh. -/
theorem sync_refresh_only_on_success (dr : DriveState) (m : Bool)
    (r : Outcome String) :
    (handleSyncDrive dr m r).fst.isSyncing = false
    ∧ (handleSyncDrive dr m r).snd
      = (match r with | Outcome.ok _ => m | Outcome.err _ => false) := by
  cases r <;> exact ⟨rfl, rfl⟩

/-- C5 counterexample: a failed sync with the document list mounted does not
trigger a refresh, contradicting the claim that completion in either outcome
triggers one. -/
theorem sync_failure_triggers_no_refresh :
    (handleSyncDrive
        { driveFolderId := "", isSavingFolder := false, isSyncing := true }
        true (Outcome.err none)).snd = false := by decide

/-- C6: a hash of the shape `#token=` ++ v with non-empty v is captured: the
value is extracted, saved through the choke point (in-memory credential,
durable storage and Bearer header together — the same update password login
performs), and the fragment is stripped; any hash failing the shape test
leaves the session untouched and strips nothing.  The choke point function
is modelled from the spec since it is absent from the provided AuthContext
source. -/
theorem oauth_capture_saves_via_choke_point (s : SessionState) (v hash : String)
    (hv : v ≠ "")
    (hno : ¬ (jsStartsWith hash "#token=" = true ∧ jsSubstringFrom hash 7 ≠ "")) :
    oauthCapture s ("#token=" ++ v)
      = { session := saveCredential v s, fragmentStripped := true }
    ∧ (saveCredential v s).token = some v
    ∧ (saveCredential v s).storage = some v
    ∧ (saveCredential v s).authHeader = some ("Bearer " ++ v)
    ∧ setTokenAndRedirect s v = loginApply s v
    ∧ oauthCapture s hash = { session := s, fragmentStripped := false } := by
  refine ⟨?_, rfl, rfl, rfl, rfl, ?_⟩
  · simp [oauthCapture, jsStartsWith_append, jsSubstringFrom_token_append, hv,
      setTokenAndRedirect]
  · by_cases h1 : jsStartsWith hash "#token=" = true
    · have h2 : jsSubstringFrom hash 7 = "" := by
        by_contra h2
        exact hno ⟨h1, h2⟩
      simp [oauthCapture, h1, h2]
    · simp [oauthCapture, h1]

/-- C6 witness: the token abc123 is captured from its fragment, and a hash
of a different shape is ignored. -/
theorem oauth_capture_saves_via_choke_point_witness :
    (oauthCapture { token := none, storage := none, authHeader := none }
        ("#token=" ++ "abc123")).session.authHeader
      = some ("Bearer " ++ "abc123")
    ∧ (oauthCapture { token := none, storage := none, authHeader := none }
        ("#token=" ++ "abc123")).fragmentStripped = true
    ∧ oauthCapture { token := none, storage := none, authHeader := none } "#nope"
      = { session := { token := none, storage := none, authHeader := none },
          fragmentStripped := false } := by
  have h := oauth_capture_saves_via_choke_point
    { token := none, storage := none, authHeader := none } "abc123" "#nope"
    (by decide) (by decide)
  refine ⟨?_, ?_, h.2.2.2.2.2⟩
  · rw [h.1]
    rfl
  · rw [h.1]

/-- C7: any upload attempt that passed the file-selected precondition ends
with the held selection null, the picker value cleared, and the busy flag
false, and the failure post-state is identical to the success post-state,
whatever server detail the failure carried. -/
theorem upload_resets_selection_both_outcomes (us : UploadState) (f : JsFile)
    (r : Outcome Unit) (d : Option String) (h : us.selectedFile = some f) :
    (handleUpload us r).fst
      = { selectedFile := none, pickerValue := "", isLoading := false }
    ∧ (handleUpload us (Outcome.ok ())).fst
      = (handleUpload us (Outcome.err d)).fst := by
  cases r <;> simp [handleUpload, h]

/-- C7 witness: a selected PDF, settled with a failure, leaves the reset
state. -/
theorem upload_resets_selection_both_outcomes_witness :
    (handleUpload
        { selectedFile := some { name := "report.pdf", type := "application/pdf" },
          pickerValue := "report.pdf", isLoading := false }
        (Outcome.err (some "server detail"))).fst
      = { selectedFile := none, pickerValue := "", isLoading := false } :=
  (upload_resets_selection_both_outcomes
    { selectedFile := some { name := "report.pdf", type := "application/pdf" },
      pickerValue := "report.pdf", isLoading := false }
    { name := "report.pdf", type := "application/pdf" }
    (Outcome.err (some "server detail")) none (by decide)).1

/-- C8: selecting a file whose media type is outside the allow-list reports
exactly one validation error, clears the held selection and the picker
value, emits no network request, and a subsequent upload click on the
resulting state issues no request either. -/
theorem invalid_type_rejected_without_network (us : UploadState) (f : JsFile)
    (r : Outcome Unit) (h : allowedTypes.contains f.type = false) :
    (handleFileChange us (some f)).fst.selectedFile = none
    ∧ (handleFileChange us (some f)).fst.pickerValue = ""
    ∧ (handleFileChange us (some f)).snd
      = [UploadEvent.validationError invalidTypeMsg]
    ∧ ((handleFileChange us (some f)).snd.all fun e => !e.isRequest) = true
    ∧ (handleUpload (handleFileChange us (some f)).fst r).snd = [] := by
  have h2 : f.type ∉ allowedTypes := by simpa using h
  simp [handleFileChange, h2, handleUpload, UploadEvent.isRequest]

/-- C8 witness: a PNG selection is rejected without any network call. -/
theorem invalid_type_rejected_without_network_witness :
    (handleFileChange
        { selectedFile := none, pickerValue := "", isLoading := false }
        (some { name := "pic.png", type := "image/png" })).snd
      = [UploadEvent.validationError invalidTypeMsg]
    ∧ (handleUpload
        (handleFileChange
          { selectedFile := none, pickerValue := "", isLoading := false }
          (some { name := "pic.png", type := "image/png" })).fst
        (Outcome.ok ())).snd = [] := by
  have h := invalid_type_rejected_without_network
    { selectedFile := none, pickerValue := "", isLoading := false }
    { name := "pic.png", type := "image/png" } (Outcome.ok ()) (by decide)
  exact ⟨h.2.2.1, h.2.2.2.2⟩

/-- C9 (amended): in the current ChatPage both chat-send outcomes and the
upload-success notification only extend the transcript — the prior turns
remain a prefix — but the upload-success handler of the earlier ChatPage
variant replaces the whole transcript with a single fresh assistant turn. -/
theorem transcript_append_only_current_page (s : ChatState) (r : Outcome String)
    (fn : String) (vs : VariantChatState) (docId : String) :
    List.IsPrefix s.messages (handleSendMessage s r).messages
    ∧ (handleUploadSuccess s fn).messages = s.messages ++ [uploadDoneTurn fn]
    ∧ (variantHandleUploadSuccess vs docId).messages = [variantReadyTurn] := by
  refine ⟨?_, rfl, rfl⟩
  unfold handleSendMessage
  by_cases h : chatSendGuard s = true
  · simp only [h, if_true, chatSendPhase2, chatSendPhase1, List.append_assoc]
    exact List.prefix_append _ _
  · simp only [h, if_false, Bool.not_eq_true] at *
    simp [h]

/-- C9 counterexample: from a transcript holding a greeting and a user turn,
the variant upload-success handler leaves a one-element transcript of which
the old transcript is not a prefix, so the operation removed previously
appended turns. -/
theorem variant_upload_replaces_transcript :
    (variantHandleUploadSuccess
        { activeDocumentId := none,
          messages := [{ role := "assistant", content := "hello" },
            { role := "user", content := "hi" }],
          inputValue := "", isLoading := false } "doc-1").messages.length = 1
    ∧ ¬ List.IsPrefix
        [{ role := "assistant", content := "hello" },
          { role := "user", content := "hi" }]
        (variantHandleUploadSuccess
          { activeDocumentId := none,
            messages := [{ role := "assistant", content := "hello" },
              { role := "user", content := "hi" }],
            inputValue := "", isLoading := false } "doc-1").messages := by
  constructor
  · rfl
  · intro hpre
    have hl := hpre.length_le
    simp [variantHandleUploadSuccess] at hl

/-- C10: the derived authentication flag equals the truthiness of the stored
credential, and the empty-string credential yields the same flag and the
same absent Authorization header as no credential at all. -/
theorem is_authenticated_matches_truthiness (t : Option String) :
    isAuthenticated (initializeSession t) = jsTruthy t
    ∧ isAuthenticated (initializeSession (some "")) = false
    ∧ (initializeSession (some "")).authHeader = none
    ∧ (initializeSession (some "")).authHeader
      = (initializeSession none).authHeader
    ∧ isAuthenticated (initializeSession (some ""))
      = isAuthenticated (initializeSession none) :=
  ⟨rfl, by decide, by decide, by decide, by decide⟩
